import Mathlib

/-!
Shallow embedding of the camera core (`camera.py`) of the simple-camera
repository: the `Camera` class with its capture settings, photo capture,
recording start/stop with codec fallback, and the duration-bounded
frame-pacing loop of `record_video`.

Modelling conventions:
* Python strings are Lean `String`s; `str.endswith` is modelled by
  `endswith` below, operating on the underlying character list.
* `pathlib.Path.with_suffix` is modelled by `with_suffix`, which replaces
  the substring after the last dot of the final path component.
* The OpenCV device handle (`cv2.VideoCapture`) is modelled by
  `VideoCapture`, carrying the values its property getters report.
* `cv2.VideoWriter` construction is abstracted by an environment `Env`
  whose `writerOpens` oracle says, per fourcc code and target path,
  whether the writer's `isOpened()` comes back true.  A writer whose
  `isOpened()` is false produces no output file (cv2 model); files at
  paths where a writer opened successfully are collected in `created`.
* Wall-clock time and frame rates are rationals; `record_video`'s loop is
  driven by a finite list of per-iteration environment inputs (`IterIn`):
  read success, the frame, the measured iteration cost, and whether a
  KeyboardInterrupt is delivered at that iteration (modelled as a flag
  observed at the iteration boundary).
-/

/-- Python `s.endswith(t)`: is `t` a suffix of `s`? -/
def endswith (s t : String) : Bool :=
  t.data.isSuffixOf s.data

/-- Scan a reversed character list for the first dot of the final path
component: returns the characters after it (still reversed), or `none`
when a path separator or the start of the string comes first. -/
def findDotRev : List Char → Option (List Char)
  | [] => none
  | c :: rest =>
    if c = '.' then some rest
    else if c = '/' then none
    else findDotRev rest

/-- `pathlib.Path.with_suffix`: replace the extension of the final path
component by `suf` (appending `suf` when there is no extension). -/
def with_suffix (p suf : String) : String :=
  match findDotRev p.data.reverse with
  | some rest => String.mk (rest.reverse ++ suf.data)
  | none => String.mk (p.data ++ suf.data)

/-- `self.output_dir = Path("./captures")` (`camera.py` line 28). -/
def output_dir : String := "captures"

/-- The `self.settings` dictionary (`camera.py` lines 32-41). -/
structure Settings where
  resolution : Int × Int
  fps : Rat
  photo_format : String
  video_format : String
  video_codec : String
  brightness : Int
  contrast : Int
  saturation : Int
deriving Repr, DecidableEq

/-- Default settings from `Camera.__init__` (`camera.py` lines 32-41). -/
def default_settings : Settings :=
  { resolution := (1280, 720)
    fps := 30
    photo_format := "png"
    video_format := "avi"
    video_codec := "XVID"
    brightness := -1
    contrast := -1
    saturation := -1 }

/-- Model of the `cv2.VideoCapture` device handle: whether `isOpened()`
is true, and the values its property getters report.  `frame_width` and
`frame_height` model `int(cap.get(CAP_PROP_FRAME_WIDTH/HEIGHT))`;
`fps_prop` models `cap.get(CAP_PROP_FPS)` (which `camera.py` never
reads). -/
structure VideoCapture where
  isOpened : Bool
  frame_width : Int
  frame_height : Int
  fps_prop : Rat
deriving Repr, DecidableEq

/-- Model of an open `cv2.VideoWriter` encoder sink: the fourcc code it
was created with, the output path, and the frame rate and frame size it
was sized with. -/
structure VideoWriter where
  fourcc : String
  path : String
  fps : Rat
  width : Int
  height : Int
deriving Repr, DecidableEq

/-- External-world oracle: `writerOpens fourcc path` is the result of
`cv2.VideoWriter(path, fourcc, ...).isOpened()`; `read_ret` is the
success flag of a single `cap.read()`; `imwrite_ok path` is the Bool
result of `cv2.imwrite(path, frame)`. -/
structure Env where
  writerOpens : String → String → Bool
  read_ret : Bool
  imwrite_ok : String → Bool

/-- The mutable state of a `Camera` object: the optional device handle,
the recording flag, the settings dictionary, the encoder sink (`none`
models both "attribute unset" and "writer not open"), and
`recording_filename`. -/
structure Camera where
  cap : Option VideoCapture
  is_recording : Bool
  settings : Settings
  video_writer : Option VideoWriter
  recording_filename : Option String
deriving Repr, DecidableEq

/--
`Camera.capture_photo` (`camera.py` lines 82-117).  `filename` is the
optional argument; `ts` models `datetime.now().strftime(...)`.  Returns
the path string or `none` exactly as the Python returns a path or
`None`.  Note that the Bool result of `cv2.imwrite` is discarded by the
source (line 115), which this model mirrors.
-/
def capture_photo (env : Env) (cam : Camera) (filename : Option String)
    (ts : String) : Option String :=
  match cam.cap with
  | none => none
  | some cap =>
    if cap.isOpened = false then none
    else if env.read_ret = false then none
    else
      let fn0 :=
        match filename with
        | none => "photo_" ++ ts ++ "." ++ cam.settings.photo_format
        | some f => f
      let ext := cam.settings.photo_format
      let fn := if endswith fn0 ("." ++ ext) then fn0 else fn0 ++ "." ++ ext
      let filepath := output_dir ++ "/" ++ fn
      let _ := env.imwrite_ok filepath
      some filepath

/-- Result of `Camera.start_recording`: the Bool return value, the
camera state after the call, the fourcc codes attempted in order, and
the paths at which a successfully opened writer created an output
file. -/
structure StartResult where
  ok : Bool
  cam : Camera
  attempts : List String
  created : List String
deriving Repr, DecidableEq

/--
`Camera.start_recording` (`camera.py` lines 119-192).  `filename` is the
optional argument; `ts` models `datetime.now().strftime(...)`.  The
codec fallback tries `avc1`, then `mp4v`, then `MJPG`; before the `MJPG`
attempt the target path is rewritten by `filepath.with_suffix('.avi')`
(line 177).  On total failure the Bool result is `False` and no open
encoder sink remains (the Python attribute then holds a writer whose
`isOpened()` is false, modelled as `none`).
-/
def start_recording (env : Env) (cam : Camera) (filename : Option String)
    (ts : String) : StartResult :=
  match cam.cap with
  | none => ⟨false, cam, [], []⟩
  | some cap =>
    if cap.isOpened = false then ⟨false, cam, [], []⟩
    else if cam.is_recording then ⟨false, cam, [], []⟩
    else
      let fn0 :=
        match filename with
        | none => "video_" ++ ts ++ ".mp4"
        | some f => f
      let fn := if endswith fn0 ".mp4" then fn0 else fn0 ++ ".mp4"
      let filepath := output_dir ++ "/" ++ fn
      let width := cap.frame_width
      let height := cap.frame_height
      let fps0 := cam.settings.fps
      let wh := if width ≤ 0 ∨ height ≤ 0 then ((1280 : Int), (720 : Int))
                else (width, height)
      let fps := if fps0 ≤ 0 then (30 : Rat) else fps0
      if env.writerOpens "avc1" filepath then
        ⟨true,
         { cam with
             is_recording := true
             video_writer := some ⟨"avc1", filepath, fps, wh.1, wh.2⟩
             recording_filename := some filepath },
         ["avc1"], [filepath]⟩
      else if env.writerOpens "mp4v" filepath then
        ⟨true,
         { cam with
             is_recording := true
             video_writer := some ⟨"mp4v", filepath, fps, wh.1, wh.2⟩
             recording_filename := some filepath },
         ["avc1", "mp4v"], [filepath]⟩
      else
        let filepath2 := with_suffix filepath ".avi"
        if env.writerOpens "MJPG" filepath2 then
          ⟨true,
           { cam with
               is_recording := true
               video_writer := some ⟨"MJPG", filepath2, fps, wh.1, wh.2⟩
               recording_filename := some filepath2 },
           ["avc1", "mp4v", "MJPG"], [filepath2]⟩
        else
          ⟨false, { cam with video_writer := none },
           ["avc1", "mp4v", "MJPG"], []⟩

/--
`Camera.stop_recording` (`camera.py` lines 194-211): returns the saved
path, or `none` (with the state untouched) when not recording; otherwise
clears the recording flag and releases the encoder sink.
-/
def stop_recording (cam : Camera) : Option String × Camera :=
  if cam.is_recording = false then (none, cam)
  else
    (cam.recording_filename,
     { cam with is_recording := false, video_writer := none })

/-- Environment input for one iteration of `record_video`'s pacing loop:
whether a KeyboardInterrupt is delivered at this iteration, the success
flag and frame of `cap.read()`, and the measured time the iteration's
read and write took (`time.time() - frame_start` at line 246). -/
structure IterIn where
  interrupt : Bool
  ret : Bool
  frame : Nat
  cost : Rat
deriving Repr, DecidableEq

/-- Observable events of the pacing loop: a frame written to the encoder
sink, a logged warning for a failed read, or a sleep of the given
(nonnegative) duration. -/
inductive REv where
  | wrote : Nat → REv
  | warn : REv
  | slept : Rat → REv
deriving Repr, DecidableEq

/--
The `while time.time() - start_time < duration` pacing loop of
`Camera.record_video` (`camera.py` lines 235-252), driven by the finite
input list: each iteration first re-checks the elapsed-time condition,
then observes a possible KeyboardInterrupt, then reads a frame — a
failed read logs a warning and continues (line 241); a successful read
writes the frame and sleeps `frame_delay - elapsed` when
`elapsed < frame_delay`, else not at all (lines 247-248).  Returns the
event trace, the final clock, and whether the loop ended by interrupt.
-/
def pacing_loop (duration frame_delay start : Rat) :
    Rat → List IterIn → List REv × Rat × Bool
  | now, [] => ([], now, false)
  | now, i :: rest =>
    if duration ≤ now - start then ([], now, false)
    else if i.interrupt then ([], now, true)
    else if i.ret = false then
      let r := pacing_loop duration frame_delay start (now + i.cost) rest
      (REv.warn :: r.1, r.2)
    else
      let elapsed := i.cost
      let sleepT := if elapsed < frame_delay then frame_delay - elapsed else 0
      let r :=
        pacing_loop duration frame_delay start (now + elapsed + sleepT) rest
      (REv.wrote i.frame :: REv.slept sleepT :: r.1, r.2)

/--
`Camera.record_video` (`camera.py` lines 213-258): `start_recording`,
then the pacing loop with `frame_delay = 1.0 / self.settings["fps"]`
(lines 229-230) starting the clock at `start_time` (taken here as 0),
then `stop_recording` — reached both on normal loop exit and after a
caught KeyboardInterrupt (lines 254-258).  Returns the Python return
value, the final camera state, and the loop's event trace.
-/
def record_video (env : Env) (cam : Camera) (duration : Rat)
    (filename : Option String) (ts : String) (inputs : List IterIn) :
    Option String × Camera × List REv :=
  let r := start_recording env cam filename ts
  if r.ok = false then (none, r.cam, [])
  else
    let frame_delay := 1 / cam.settings.fps
    let l := pacing_loop duration frame_delay 0 0 inputs
    let s := stop_recording r.cam
    (s.1, s.2, l.1)

/-! ### Helper lemmas about suffixes and `with_suffix` -/

lemma endswith_iff {s t : String} : endswith s t = true ↔ t.data <:+ s.data := by
  unfold endswith
  exact List.isSuffixOf_iff_suffix

lemma endswith_append_right (a b : String) : endswith (a ++ b) b = true := by
  rw [endswith_iff, String.data_append]
  exact List.suffix_append _ _

lemma endswith_append_left {b t : String} (a : String)
    (h : endswith b t = true) : endswith (a ++ b) t = true := by
  rw [endswith_iff] at h ⊢
  rw [String.data_append]
  exact h.trans (List.suffix_append _ _)

lemma forced_mp4_endswith (s : String) :
    endswith (if endswith s ".mp4" then s else s ++ ".mp4") ".mp4" = true := by
  by_cases h : endswith s ".mp4" = true
  · simp [h]
  · simp only [Bool.not_eq_true] at h
    simp [h, endswith_append_right]

lemma exists_data_of_endswith {s t : String} (h : endswith s t = true) :
    ∃ l, s.data = l ++ t.data := by
  rw [endswith_iff] at h
  obtain ⟨l, hl⟩ := h
  exact ⟨l, hl.symm⟩

lemma with_suffix_data_of_mp4 {p : String} {l : List Char}
    (h : p.data = l ++ ".mp4".data) :
    (with_suffix p ".avi").data = l ++ ".avi".data := by
  have hrev : p.data.reverse = '4' :: 'p' :: 'm' :: '.' :: l.reverse := by
    rw [h]
    simp
  have hf : findDotRev ('4' :: 'p' :: 'm' :: '.' :: l.reverse) = some l.reverse := by
    simp [findDotRev]
  unfold with_suffix
  rw [hrev, hf]
  simp

lemma suffix_eq_of_length {s₁ s₂ l : List Char} (h₁ : s₁ <:+ l) (h₂ : s₂ <:+ l)
    (h : s₁.length = s₂.length) : s₁ = s₂ := by
  rw [List.suffix_iff_eq_drop] at h₁ h₂
  rw [h₁, h₂, h]

lemma endswith_avi_of_data {s : String} {l : List Char}
    (h : s.data = l ++ ".avi".data) : endswith s ".avi" = true := by
  rw [endswith_iff, h]
  exact List.suffix_append _ _

lemma not_endswith_mp4_of_data {s : String} {l : List Char}
    (h : s.data = l ++ ".avi".data) : endswith s ".mp4" = false := by
  have h2 : (".avi".data : List Char) <:+ s.data := by
    rw [h]
    exact List.suffix_append _ _
  cases hb : endswith s ".mp4" with
  | false => rfl
  | true =>
    have h1 : (".mp4".data : List Char) <:+ s.data := endswith_iff.mp hb
    have heq : (".mp4".data : List Char) = ".avi".data :=
      suffix_eq_of_length h1 h2 (by decide)
    exact absurd heq (by decide)

lemma sleep_eq_max (fd e : Rat) :
    (if e < fd then fd - e else 0) = max 0 (fd - e) := by
  by_cases h : e < fd
  · rw [if_pos h, max_eq_right]
    linarith
  · rw [if_neg h, max_eq_left]
    push_neg at h
    linarith

/-! ### Concrete fixtures used by witnesses and counterexamples -/

/-- A device handle reporting 640x480 at 30 fps, successfully opened. -/
def capTest : VideoCapture := ⟨true, 640, 480, 30⟩

/-- An idle camera with an open device and default settings. -/
def camIdle : Camera :=
  { cap := some capTest
    is_recording := false
    settings := default_settings
    video_writer := none
    recording_filename := none }

/-- A camera in the middle of a recording. -/
def camRec : Camera :=
  { cap := some capTest
    is_recording := true
    settings := default_settings
    video_writer := some ⟨"avc1", "captures/v.mp4", 30, 640, 480⟩
    recording_filename := some "captures/v.mp4" }

/-- An idle camera whose photo format has been set to jpg. -/
def camJpg : Camera :=
  { camIdle with settings := { default_settings with photo_format := "jpg" } }

/-- Environment where every backend initializes and all I/O succeeds. -/
def envAll : Env := ⟨fun _ _ => true, true, fun _ => true⟩

/-- Environment where `cv2.imwrite` fails but everything else works. -/
def envWriteFail : Env := ⟨fun _ _ => true, true, fun _ => false⟩

/-- Environment where only the MJPG backend initializes. -/
def envOnlyMJPG : Env := ⟨fun fc _ => fc == "MJPG", true, fun _ => true⟩

/-- Environment where no video encoder backend initializes. -/
def envNoCodec : Env := ⟨fun _ _ => false, true, fun _ => true⟩

/-! ### Claims -/

/-- C6: for every camera state in which no recording is active,
`stop_recording` returns `None` (the NotRecording result) and leaves the
entire state unchanged. -/
theorem stop_recording_idle (cam : Camera) (h : cam.is_recording = false) :
    stop_recording cam = (none, cam) := by
  simp [stop_recording, h]

/-- Witness for C6 at a concrete idle camera. -/
theorem stop_recording_idle_witness :
    camIdle.is_recording = false ∧ stop_recording camIdle = (none, camIdle) :=
  ⟨rfl, stop_recording_idle camIdle rfl⟩

/-- C7: for every open session already recording, `start_recording`
returns `False` (the AlreadyRecording result) and leaves the camera
state — encoder sink, path, flag — completely untouched, attempting no
backend and creating no file. -/
theorem start_recording_already_recording (env : Env) (cam : Camera)
    (cap : VideoCapture) (filename : Option String) (ts : String)
    (hcap : cam.cap = some cap) (hop : cap.isOpened = true)
    (hrec : cam.is_recording = true) :
    start_recording env cam filename ts = ⟨false, cam, [], []⟩ := by
  simp [start_recording, hcap, hop, hrec]

/-- Witness for C7 at a concrete recording camera. -/
theorem start_recording_already_recording_witness :
    camRec.cap = some capTest ∧ capTest.isOpened = true ∧
    camRec.is_recording = true ∧
    start_recording envAll camRec (some "x") "20240101_000000" =
      ⟨false, camRec, [], []⟩ :=
  ⟨rfl, rfl, rfl,
   start_recording_already_recording envAll camRec capTest (some "x")
     "20240101_000000" rfl rfl rfl⟩

/-- C9: with photo format jpg, `capture_photo` with requested name
"shot" returns the path captures/shot.jpg, and with requested name
"shot.jpg" returns that identical path, with no double extension. -/
theorem capture_photo_roundtrip (env : Env) (cam : Camera)
    (cap : VideoCapture) (ts : String)
    (hcap : cam.cap = some cap) (hop : cap.isOpened = true)
    (hret : env.read_ret = true)
    (hfmt : cam.settings.photo_format = "jpg") :
    capture_photo env cam (some "shot") ts = some "captures/shot.jpg" ∧
    capture_photo env cam (some "shot.jpg") ts = some "captures/shot.jpg" ∧
    endswith "captures/shot.jpg" "shot.jpg" = true := by
  have h1 : endswith "shot" ".jpg" = false := by decide
  have h2 : endswith "shot.jpg" ".jpg" = true := by decide
  refine ⟨?_, ?_, by decide⟩ <;>
    simp [capture_photo, hcap, hop, hret, hfmt, h1, h2, output_dir]

/-- Witness for C9 at a concrete jpg camera. -/
theorem capture_photo_roundtrip_witness :
    camJpg.cap = some capTest ∧ capTest.isOpened = true ∧
    envAll.read_ret = true ∧ camJpg.settings.photo_format = "jpg" ∧
    (capture_photo envAll camJpg (some "shot") "20240101_000000" =
       some "captures/shot.jpg" ∧
     capture_photo envAll camJpg (some "shot.jpg") "20240101_000000" =
       some "captures/shot.jpg" ∧
     endswith "captures/shot.jpg" "shot.jpg" = true) :=
  ⟨rfl, rfl, rfl, rfl,
   capture_photo_roundtrip envAll camJpg capTest "20240101_000000"
     rfl rfl rfl rfl⟩

/-- C10: `capture_photo`'s extension handling is a suffix check only:
any requested filename that does not end in the current photo format's
extension gets that extension appended on top, even when it already
carries a different extension, yielding a double-extension path. -/
theorem capture_photo_double_extension (env : Env) (cam : Camera)
    (cap : VideoCapture) (ts fn : String)
    (hcap : cam.cap = some cap) (hop : cap.isOpened = true)
    (hret : env.read_ret = true)
    (hext : endswith fn ("." ++ cam.settings.photo_format) = false) :
    capture_photo env cam (some fn) ts =
      some (output_dir ++ "/" ++ (fn ++ "." ++ cam.settings.photo_format)) := by
  simp [capture_photo, hcap, hop, hret, hext]

/-- Witness for C10: requesting "shot.png" while the photo format is jpg
yields the double-extension path captures/shot.png.jpg. -/
theorem capture_photo_double_extension_witness :
    camJpg.cap = some capTest ∧ capTest.isOpened = true ∧
    envAll.read_ret = true ∧
    endswith "shot.png" ("." ++ camJpg.settings.photo_format) = false ∧
    capture_photo envAll camJpg (some "shot.png") "20240101_000000" =
      some "captures/shot.png.jpg" :=
  ⟨rfl, rfl, rfl, by decide,
   (capture_photo_double_extension envAll camJpg capTest "20240101_000000"
      "shot.png" rfl rfl rfl (by decide)).trans (by decide)⟩

/-- C8: `capture_photo` ignores the Bool result of `cv2.imwrite`
(`camera.py` line 115): with an environment in which every image write
fails, it still reports success with the target path, although nothing
was written there. -/
theorem capture_photo_ignores_write_failure :
    capture_photo envWriteFail camJpg (some "shot") "20240101_000000" =
      some "captures/shot.jpg" ∧
    envWriteFail.imwrite_ok "captures/shot.jpg" = false := by
  exact ⟨by decide, rfl⟩

/-- C1: `start_recording` tries the encoder backends in the fixed
priority order avc1, then mp4v, then MJPG, stopping at the first that
initializes; whenever the first two fail and MJPG is used, the output
path's extension is rewritten to .avi and is never left as the
originally requested .mp4. -/
theorem start_recording_codec_fallback (env : Env) (cam : Camera)
    (cap : VideoCapture) (fn0 : String) (ts : String)
    (hcap : cam.cap = some cap) (hop : cap.isOpened = true)
    (hrec : cam.is_recording = false) :
    (env.writerOpens "avc1"
        (output_dir ++ "/" ++ (if endswith fn0 ".mp4" then fn0 else fn0 ++ ".mp4")) = true →
      (start_recording env cam (some fn0) ts).ok = true ∧
      (start_recording env cam (some fn0) ts).attempts = ["avc1"] ∧
      (start_recording env cam (some fn0) ts).cam.recording_filename =
        some (output_dir ++ "/" ++ (if endswith fn0 ".mp4" then fn0 else fn0 ++ ".mp4"))) ∧
    (env.writerOpens "avc1"
        (output_dir ++ "/" ++ (if endswith fn0 ".mp4" then fn0 else fn0 ++ ".mp4")) = false →
     env.writerOpens "mp4v"
        (output_dir ++ "/" ++ (if endswith fn0 ".mp4" then fn0 else fn0 ++ ".mp4")) = true →
      (start_recording env cam (some fn0) ts).ok = true ∧
      (start_recording env cam (some fn0) ts).attempts = ["avc1", "mp4v"] ∧
      (start_recording env cam (some fn0) ts).cam.recording_filename =
        some (output_dir ++ "/" ++ (if endswith fn0 ".mp4" then fn0 else fn0 ++ ".mp4"))) ∧
    (env.writerOpens "avc1"
        (output_dir ++ "/" ++ (if endswith fn0 ".mp4" then fn0 else fn0 ++ ".mp4")) = false →
     env.writerOpens "mp4v"
        (output_dir ++ "/" ++ (if endswith fn0 ".mp4" then fn0 else fn0 ++ ".mp4")) = false →
     env.writerOpens "MJPG"
        (with_suffix (output_dir ++ "/" ++ (if endswith fn0 ".mp4" then fn0 else fn0 ++ ".mp4")) ".avi") = true →
      (start_recording env cam (some fn0) ts).ok = true ∧
      (start_recording env cam (some fn0) ts).attempts = ["avc1", "mp4v", "MJPG"] ∧
      (start_recording env cam (some fn0) ts).cam.recording_filename =
        some (with_suffix (output_dir ++ "/" ++ (if endswith fn0 ".mp4" then fn0 else fn0 ++ ".mp4")) ".avi") ∧
      endswith (with_suffix (output_dir ++ "/" ++ (if endswith fn0 ".mp4" then fn0 else fn0 ++ ".mp4")) ".avi") ".avi" = true ∧
      endswith (with_suffix (output_dir ++ "/" ++ (if endswith fn0 ".mp4" then fn0 else fn0 ++ ".mp4")) ".avi") ".mp4" = false) := by
  have hpm : endswith
      (output_dir ++ "/" ++ (if endswith fn0 ".mp4" then fn0 else fn0 ++ ".mp4"))
      ".mp4" = true :=
    endswith_append_left _ (forced_mp4_endswith fn0)
  obtain ⟨l, hl⟩ := exists_data_of_endswith hpm
  have hdata := with_suffix_data_of_mp4 hl
  have havi := endswith_avi_of_data hdata
  have hnmp4 := not_endswith_mp4_of_data hdata
  refine ⟨?_, ?_, ?_⟩
  · intro h1
    simp [start_recording, hcap, hop, hrec, h1]
  · intro h1 h2
    simp [start_recording, hcap, hop, hrec, h1, h2]
  · intro h1 h2 h3
    simp [start_recording, hcap, hop, hrec, h1, h2, h3, havi, hnmp4]

/-- Witness for C1: with only the MJPG backend available, recording a
clip requested as captures/clip.mp4 lands at captures/clip.avi. -/
theorem start_recording_codec_fallback_witness :
    camIdle.cap = some capTest ∧ capTest.isOpened = true ∧
    camIdle.is_recording = false ∧
    (envOnlyMJPG.writerOpens "avc1"
        (output_dir ++ "/" ++ (if endswith "clip" ".mp4" then "clip" else "clip" ++ ".mp4")) = false →
     envOnlyMJPG.writerOpens "mp4v"
        (output_dir ++ "/" ++ (if endswith "clip" ".mp4" then "clip" else "clip" ++ ".mp4")) = false →
     envOnlyMJPG.writerOpens "MJPG"
        (with_suffix (output_dir ++ "/" ++ (if endswith "clip" ".mp4" then "clip" else "clip" ++ ".mp4")) ".avi") = true →
      (start_recording envOnlyMJPG camIdle (some "clip") "20240101_000000").ok = true ∧
      (start_recording envOnlyMJPG camIdle (some "clip") "20240101_000000").attempts = ["avc1", "mp4v", "MJPG"] ∧
      (start_recording envOnlyMJPG camIdle (some "clip") "20240101_000000").cam.recording_filename =
        some (with_suffix (output_dir ++ "/" ++ (if endswith "clip" ".mp4" then "clip" else "clip" ++ ".mp4")) ".avi") ∧
      endswith (with_suffix (output_dir ++ "/" ++ (if endswith "clip" ".mp4" then "clip" else "clip" ++ ".mp4")) ".avi") ".avi" = true ∧
      endswith (with_suffix (output_dir ++ "/" ++ (if endswith "clip" ".mp4" then "clip" else "clip" ++ ".mp4")) ".avi") ".mp4" = false) :=
  ⟨rfl, rfl, rfl,
   (start_recording_codec_fallback envOnlyMJPG camIdle capTest "clip"
      "20240101_000000" rfl rfl rfl).2.2⟩

/-- C2: when all three codec backends fail to initialize,
`start_recording` returns `False`, the camera stays idle
(`is_recording` remains false), no open encoder sink remains, and no
output file is created at any path. -/
theorem start_recording_all_backends_fail (env : Env) (cam : Camera)
    (cap : VideoCapture) (fn0 : String) (ts : String)
    (hcap : cam.cap = some cap) (hop : cap.isOpened = true)
    (hrec : cam.is_recording = false)
    (h1 : env.writerOpens "avc1"
        (output_dir ++ "/" ++ (if endswith fn0 ".mp4" then fn0 else fn0 ++ ".mp4")) = false)
    (h2 : env.writerOpens "mp4v"
        (output_dir ++ "/" ++ (if endswith fn0 ".mp4" then fn0 else fn0 ++ ".mp4")) = false)
    (h3 : env.writerOpens "MJPG"
        (with_suffix (output_dir ++ "/" ++ (if endswith fn0 ".mp4" then fn0 else fn0 ++ ".mp4")) ".avi") = false) :
    (start_recording env cam (some fn0) ts).ok = false ∧
    (start_recording env cam (some fn0) ts).cam.is_recording = false ∧
    (start_recording env cam (some fn0) ts).cam.video_writer = none ∧
    (start_recording env cam (some fn0) ts).created = [] := by
  simp [start_recording, hcap, hop, hrec, h1, h2, h3]

/-- Witness for C2 at a concrete camera and codec-free environment. -/
theorem start_recording_all_backends_fail_witness :
    camIdle.cap = some capTest ∧ capTest.isOpened = true ∧
    camIdle.is_recording = false ∧
    ((start_recording envNoCodec camIdle (some "clip") "20240101_000000").ok = false ∧
     (start_recording envNoCodec camIdle (some "clip") "20240101_000000").cam.is_recording = false ∧
     (start_recording envNoCodec camIdle (some "clip") "20240101_000000").cam.video_writer = none ∧
     (start_recording envNoCodec camIdle (some "clip") "20240101_000000").created = []) :=
  ⟨rfl, rfl, rfl,
   start_recording_all_backends_fail envNoCodec camIdle capTest "clip"
     "20240101_000000" rfl rfl rfl rfl rfl rfl⟩

/-- C3 (amended): for every open session, `start_recording` sizes the
encoder from the device's actually reported resolution, substituting
1280x720 when a reported dimension is non-positive; the frame rate,
however, is taken from the session's requested settings — not queried
from the device — with 30 substituted when that setting is
non-positive. -/
theorem start_recording_encoder_sizing (env : Env) (cam : Camera)
    (cap : VideoCapture) (filename : Option String) (ts : String)
    (w : VideoWriter)
    (hcap : cam.cap = some cap) (hop : cap.isOpened = true)
    (hrec : cam.is_recording = false)
    (hw : (start_recording env cam filename ts).cam.video_writer = some w) :
    w.width = (if cap.frame_width ≤ 0 ∨ cap.frame_height ≤ 0 then (1280 : Int)
               else cap.frame_width) ∧
    w.height = (if cap.frame_width ≤ 0 ∨ cap.frame_height ≤ 0 then (720 : Int)
                else cap.frame_height) ∧
    w.fps = (if cam.settings.fps ≤ 0 then (30 : Rat) else cam.settings.fps) := by
  simp only [start_recording, hcap, hop, hrec] at hw
  split_ifs at hw ⊢ <;>
    first
      | (obtain rfl := Option.some.inj hw; exact ⟨rfl, rfl, rfl⟩)
      | simp_all

/-- Witness for the amended C3 at a concrete camera whose device reports
a non-positive width, exercising the 1280x720 substitution. -/
theorem start_recording_encoder_sizing_witness :
    (Camera.mk (some ⟨true, 0, 480, 30⟩) false default_settings none none).cap =
      some ⟨true, 0, 480, 30⟩ ∧
    (VideoCapture.mk true 0 480 30).isOpened = true ∧
    (Camera.mk (some ⟨true, 0, 480, 30⟩) false default_settings none none).is_recording = false ∧
    (start_recording envAll
        (Camera.mk (some ⟨true, 0, 480, 30⟩) false default_settings none none)
        (some "clip") "20240101_000000").cam.video_writer =
      some ⟨"avc1", "captures/clip.mp4", 30, 1280, 720⟩ ∧
    ((VideoWriter.mk "avc1" "captures/clip.mp4" 30 1280 720).width =
       (if (VideoCapture.mk true 0 480 30).frame_width ≤ 0 ∨
           (VideoCapture.mk true 0 480 30).frame_height ≤ 0 then (1280 : Int)
        else (VideoCapture.mk true 0 480 30).frame_width) ∧
     (VideoWriter.mk "avc1" "captures/clip.mp4" 30 1280 720).height =
       (if (VideoCapture.mk true 0 480 30).frame_width ≤ 0 ∨
           (VideoCapture.mk true 0 480 30).frame_height ≤ 0 then (720 : Int)
        else (VideoCapture.mk true 0 480 30).frame_height) ∧
     (VideoWriter.mk "avc1" "captures/clip.mp4" 30 1280 720).fps =
       (if (Camera.mk (some ⟨true, 0, 480, 30⟩) false default_settings none none).settings.fps ≤ 0
        then (30 : Rat)
        else (Camera.mk (some ⟨true, 0, 480, 30⟩) false default_settings none none).settings.fps)) :=
  ⟨rfl, rfl, rfl, by decide,
   start_recording_encoder_sizing envAll
     (Camera.mk (some ⟨true, 0, 480, 30⟩) false default_settings none none)
     ⟨true, 0, 480, 30⟩ (some "clip") "20240101_000000"
     ⟨"avc1", "captures/clip.mp4", 30, 1280, 720⟩ rfl rfl rfl (by decide)⟩

/-- A device handle that reports a 60 fps frame rate. -/
def capFps60 : VideoCapture := ⟨true, 640, 480, 60⟩

/-- An idle camera on that device whose requested settings ask for
25 fps. -/
def camFps25 : Camera :=
  { cap := some capFps60
    is_recording := false
    settings := { default_settings with fps := 25 }
    video_writer := none
    recording_filename := none }

/-- Counterexample to C3 as stated: the device reports a (positive)
frame rate of 60 fps, yet the encoder is sized with the requested
setting of 25 fps — the frame rate is not queried from the device. -/
theorem start_recording_fps_not_queried_from_device :
    (start_recording envAll camFps25 (some "clip") "20240101_000000").cam.video_writer =
      some ⟨"avc1", "captures/clip.mp4", 25, 640, 480⟩ ∧
    capFps60.fps_prop = 60 ∧ ((25 : Rat) = 60 → False) := by
  refine ⟨by decide, rfl, by decide⟩

/-- C4: in the pacing loop, an iteration with a successful read writes
the frame to the encoder sink and then sleeps exactly
max 0 (1/frameRate - iterationElapsed) — never negative, zero when the
iteration already exceeded the frame budget, with no compensation
carried into the recursive call — while an iteration with a failed read
logs a warning and continues without aborting. -/
theorem pacing_loop_frame_pacing (fps duration start now : Rat)
    (i : IterIn) (rest : List IterIn)
    (_hfps : 0 < fps) (hrun : now - start < duration)
    (hint : i.interrupt = false) :
    (i.ret = true →
       pacing_loop duration (1 / fps) start now (i :: rest) =
         (REv.wrote i.frame :: REv.slept (max 0 (1 / fps - i.cost)) ::
            (pacing_loop duration (1 / fps) start
               (now + i.cost + max 0 (1 / fps - i.cost)) rest).1,
          (pacing_loop duration (1 / fps) start
             (now + i.cost + max 0 (1 / fps - i.cost)) rest).2)) ∧
    (i.ret = false →
       pacing_loop duration (1 / fps) start now (i :: rest) =
         (REv.warn ::
            (pacing_loop duration (1 / fps) start (now + i.cost) rest).1,
          (pacing_loop duration (1 / fps) start (now + i.cost) rest).2)) := by
  have hnle : ¬ duration ≤ now - start := not_le.mpr hrun
  constructor <;> intro hret <;>
    simp [pacing_loop, hnle, hint, hret, sleep_eq_max]

/-- Witness for C4 at one concrete successful and the loop's
recursive-call shape, with fps 1 and a zero-cost iteration. -/
theorem pacing_loop_frame_pacing_witness :
    (0 : Rat) < 1 ∧ (0 : Rat) - 0 < 5 ∧
    (IterIn.mk false true 7 0).interrupt = false ∧
    (((IterIn.mk false true 7 0).ret = true →
       pacing_loop 5 (1 / 1) 0 0 (IterIn.mk false true 7 0 :: []) =
         (REv.wrote (IterIn.mk false true 7 0).frame ::
            REv.slept (max 0 (1 / 1 - (IterIn.mk false true 7 0).cost)) ::
            (pacing_loop 5 (1 / 1) 0
               (0 + (IterIn.mk false true 7 0).cost +
                  max 0 (1 / 1 - (IterIn.mk false true 7 0).cost)) []).1,
          (pacing_loop 5 (1 / 1) 0
             (0 + (IterIn.mk false true 7 0).cost +
                max 0 (1 / 1 - (IterIn.mk false true 7 0).cost)) []).2)) ∧
     ((IterIn.mk false true 7 0).ret = false →
       pacing_loop 5 (1 / 1) 0 0 (IterIn.mk false true 7 0 :: []) =
         (REv.warn ::
            (pacing_loop 5 (1 / 1) 0 (0 + (IterIn.mk false true 7 0).cost) []).1,
          (pacing_loop 5 (1 / 1) 0 (0 + (IterIn.mk false true 7 0).cost) []).2))) :=
  ⟨by decide, by simp, rfl,
   pacing_loop_frame_pacing 1 5 0 0 (IterIn.mk false true 7 0) []
     (by decide) (by simp) rfl⟩

/-- If `start_recording` reports success, the resulting camera is in the
recording state and carries a resolved recording path. -/
lemma start_recording_ok_state {env : Env} {cam : Camera}
    {filename : Option String} {ts : String}
    (hok : (start_recording env cam filename ts).ok = true) :
    (start_recording env cam filename ts).cam.is_recording = true ∧
    ∃ p, (start_recording env cam filename ts).cam.recording_filename = some p := by
  unfold start_recording at hok ⊢
  cases hcc : cam.cap with
  | none =>
    simp only [hcc] at hok
    simp at hok
  | some cap =>
    simp only [hcc] at hok ⊢
    split_ifs at hok ⊢ <;> simp_all

/-- C5: the pacing loop observes the cancellation signal once per
iteration, independently of the elapsed-time test — an interrupted
iteration exits the loop even though the duration has not elapsed — and
`record_video` then falls through to the same `stop_recording` path used
on normal completion, so the recording's resolved path is returned and
the camera is back in the idle state. -/
theorem record_video_cooperative_cancellation (env : Env) (cam : Camera)
    (duration : Rat) (filename : Option String) (ts : String)
    (inputs rest : List IterIn) (i : IterIn) (now start : Rat)
    (hok : (start_recording env cam filename ts).ok = true)
    (hint : i.interrupt = true) (hrun : now - start < duration) :
    pacing_loop duration (1 / cam.settings.fps) start now (i :: rest) =
      ([], now, true) ∧
    record_video env cam duration filename ts inputs =
      ((stop_recording (start_recording env cam filename ts).cam).1,
       (stop_recording (start_recording env cam filename ts).cam).2,
       (pacing_loop duration (1 / cam.settings.fps) 0 0 inputs).1) ∧
    (record_video env cam duration filename ts inputs).2.1.is_recording = false ∧
    (record_video env cam duration filename ts inputs).1 =
      (start_recording env cam filename ts).cam.recording_filename ∧
    (∃ p, (record_video env cam duration filename ts inputs).1 = some p) := by
  obtain ⟨hrecT, p, hp⟩ := start_recording_ok_state hok
  have hnle : ¬ duration ≤ now - start := not_le.mpr hrun
  have hloop : pacing_loop duration (1 / cam.settings.fps) start now (i :: rest) =
      ([], now, true) := by
    simp [pacing_loop, hnle, hint]
  have hrv : record_video env cam duration filename ts inputs =
      ((stop_recording (start_recording env cam filename ts).cam).1,
       (stop_recording (start_recording env cam filename ts).cam).2,
       (pacing_loop duration (1 / cam.settings.fps) 0 0 inputs).1) := by
    simp [record_video, hok]
  refine ⟨hloop, hrv, ?_, ?_, ?_⟩
  · rw [hrv]
    simp [stop_recording, hrecT]
  · rw [hrv]
    simp [stop_recording, hrecT]
  · rw [hrv]
    simp [stop_recording, hrecT, hp]

/-- Witness for C5 with a concrete idle camera, an interrupt delivered
on the first iteration, and a 60-second requested duration. -/
theorem record_video_cooperative_cancellation_witness :
    (start_recording envAll camIdle (some "v") "20240101_000000").ok = true ∧
    (IterIn.mk true true 0 0).interrupt = true ∧
    (0 : Rat) - 0 < 60 ∧
    (pacing_loop 60 (1 / camIdle.settings.fps) 0 0 (IterIn.mk true true 0 0 :: []) =
       ([], 0, true) ∧
     record_video envAll camIdle 60 (some "v") "20240101_000000" [] =
       ((stop_recording (start_recording envAll camIdle (some "v") "20240101_000000").cam).1,
        (stop_recording (start_recording envAll camIdle (some "v") "20240101_000000").cam).2,
        (pacing_loop 60 (1 / camIdle.settings.fps) 0 0 []).1) ∧
     (record_video envAll camIdle 60 (some "v") "20240101_000000" []).2.1.is_recording = false ∧
     (record_video envAll camIdle 60 (some "v") "20240101_000000" []).1 =
       (start_recording envAll camIdle (some "v") "20240101_000000").cam.recording_filename ∧
     (∃ p, (record_video envAll camIdle 60 (some "v") "20240101_000000" []).1 = some p)) :=
  ⟨by decide, rfl, by simp,
   record_video_cooperative_cancellation envAll camIdle 60 (some "v")
     "20240101_000000" [] [] (IterIn.mk true true 0 0) 0 0
     (by decide) rfl (by simp)⟩
